import Mathlib

/-!
Verification of the command-dispatch, sink-topology, failure-classification and
escalation core of btrfs-sxbackup (`btrfs_sxbackup/__main__.py`), as a shallow
embedding.  Python machine behaviour relevant here:

* argparse stores a positional argument under exactly the name it was declared
  with (no hyphen-to-underscore conversion for positionals), so the `send`
  subparser's `source-subvolume` / `destination-subvolume` positionals are not
  reachable as `args.source_subvolume` / `args.destination_subvolume`;
  accessing those raises `AttributeError`.
* `logging.handlers.MemoryHandler.flush` clears its buffer only when a target
  handler has been set; `__main__.py` never sets one, so the buffer is never
  cleared even though `capacity=-1` makes `shouldFlush` always true.
* `--mail` is declared with `nargs=1` optionality (`nargs=?`, `const=`empty),
  so its parsed value is `None` when absent, the empty string when given
  without an address, and the address otherwise.

Timestamps (`asctime`) are abstracted by a clock oracle mapping the emission
index of a record to its rendered timestamp string.  The application version
string (imported from the package, outside this module) is an abstract
parameter.
-/

namespace BtrfsSxbackup

/-- Python truthiness of an optional string: `None` and the empty string are
falsy, every other string is truthy. -/
def pyTruthy : Option String → Bool
  | none => false
  | some s => s ≠ ""

/-- `_APP_NAME` from `__main__.py`. -/
def appName : String := "btrfs-sxbackup"

/-- The six subcommand names (`_CMD_INIT` .. `_CMD_DESTROY`); argparse with
`subparsers.required = True` guarantees exactly one of these is parsed. -/
inductive Command
  | init | update | run | info | send | destroy
deriving DecidableEq, Repr

/-- The external `Configuration` collaborator: `log_ident` and
`email_recipient`, each possibly unset (`None`) or set to a string. -/
structure Config where
  log_ident : Option String
  email_recipient : Option String
deriving DecidableEq, Repr

/-- The parsed argparse namespace.  Typed optional flags are plain fields;
positional arguments live in `positionals` under the exact name argparse
stored them with (hyphens preserved for positionals). -/
structure Args where
  command : Command
  quiet : Bool
  trace : Bool
  mail : Option String
  log_ident : Option String
  positionals : List (String × String)
  source_retention : Option String
  destination_retention : Option String
  compress : Bool
  purge : Bool
deriving DecidableEq, Repr

/-- Namespace produced by `parser.parse_args` for `run SUB [-m [ADDR]] [-li I]`. -/
def parseRun (quiet trace : Bool) (subvolume : String)
    (mail : Option String) (logIdentArg : Option String) : Args :=
  { command := .run, quiet := quiet, trace := trace, mail := mail,
    log_ident := logIdentArg, positionals := [("subvolume", subvolume)],
    source_retention := none, destination_retention := none,
    compress := false, purge := false }

/-- Namespace for `init SRC DST [-sr E] [-dr E] [-c]`; these positionals were
declared with underscores, so they are reachable as attributes. -/
def parseInit (quiet trace : Bool) (src dst : String)
    (sr dr : Option String) (compress : Bool) : Args :=
  { command := .init, quiet := quiet, trace := trace, mail := none,
    log_ident := none,
    positionals := [("source_subvolume", src), ("destination_subvolume", dst)],
    source_retention := sr, destination_retention := dr,
    compress := compress, purge := false }

/-- Namespace for `update SUB [-sr E] [-dr E] [-c]`. -/
def parseUpdate (quiet trace : Bool) (subvolume : String)
    (sr dr : Option String) (compress : Bool) : Args :=
  { command := .update, quiet := quiet, trace := trace, mail := none,
    log_ident := none, positionals := [("subvolume", subvolume)],
    source_retention := sr, destination_retention := dr,
    compress := compress, purge := false }

/-- Namespace for `info SUB`. -/
def parseInfo (quiet trace : Bool) (subvolume : String) : Args :=
  { command := .info, quiet := quiet, trace := trace, mail := none,
    log_ident := none, positionals := [("subvolume", subvolume)],
    source_retention := none, destination_retention := none,
    compress := false, purge := false }

/-- Namespace for `destroy SUB [--purge]`. -/
def parseDestroy (quiet trace : Bool) (subvolume : String) (purge : Bool) : Args :=
  { command := .destroy, quiet := quiet, trace := trace, mail := none,
    log_ident := none, positionals := [("subvolume", subvolume)],
    source_retention := none, destination_retention := none,
    compress := false, purge := purge }

/-- Namespace for `send SRC DST [-c]`.  `p_send` declares its positionals as
`source-subvolume` and `destination-subvolume` (with hyphens), and argparse
keeps those names verbatim for positionals. -/
def parseSend (quiet trace : Bool) (src dst : String) (compress : Bool) : Args :=
  { command := .send, quiet := quiet, trace := trace, mail := none,
    log_ident := none,
    positionals := [("source-subvolume", src), ("destination-subvolume", dst)],
    source_retention := none, destination_retention := none,
    compress := compress, purge := false }

/-- Sink topology resulting from the module-level handler setup:
which handlers were attached to the root logger and the syslog handler's
`ident` field (empty string when never assigned, its default). -/
structure SinkSet where
  console : Bool
  syslog : Bool
  syslogIdent : String
  memory : Bool
deriving DecidableEq, Repr

/-- Lines 125-128 of `__main__.py`:

    if args.log_ident:
        log_ident = args.log_ident if args.log_ident else Configuration.instance().log_ident
        if log_ident:
            log_syslog_handler.ident = log_ident + chr(32)

The result is the final value of `log_syslog_handler.ident`. -/
def resolveSyslogIdent (argLogIdent cfgLogIdent : Option String) : String :=
  if pyTruthy argLogIdent then
    let li : Option String :=
      if pyTruthy argLogIdent then argLogIdent else cfgLogIdent
    if pyTruthy li then li.getD "" ++ " " else ""
  else ""

/-- Lines 108-137 of `__main__.py`: console handler unless `--quiet`; syslog
handler (with ident resolution) only for `run`; for `run` with `--mail`
present, resolve the recipient (verbatim if non-empty, else configuration
default) and attach the memory handler.  Returns the sink topology and the
final value of the module-level `email_recipient` variable. -/
def setupSinks (args : Args) (config : Config) : SinkSet × Option String :=
  let console := !args.quiet
  if args.command = .run then
    let ident := resolveSyslogIdent args.log_ident config.log_ident
    match args.mail with
    | none =>
        ({ console := console, syslog := true, syslogIdent := ident,
           memory := false }, none)
    | some m =>
        let recip := if m ≠ "" then some m else config.email_recipient
        ({ console := console, syslog := true, syslogIdent := ident,
           memory := true }, recip)
  else
    ({ console := console, syslog := false, syslogIdent := "",
       memory := false }, none)

/-- A failure escaping handler execution (the `except` taxonomy of
`__main__.py`): `SystemExit` with an integer code, `CalledProcessError`
carrying its message and optionally captured output (already decoded;
`none` models an absent `output` attribute), a missing-namespace-attribute
failure raised by `getattr`, or any other exception with its message. -/
inductive Failure
  | sysExit (code : Int)
  | calledProcessError (msg : String) (output : Option String)
  | attributeError (missingAttr : String)
  | generic (msg : String)
deriving DecidableEq, Repr

/-- The text `str(e)` of a failure as consumed by the classifier.  The
`sysExit` case is never consumed (it is caught by the earlier
`except SystemExit` clause).  Python renders an `AttributeError` from
`getattr` with the attribute name in its message. -/
def Failure.message : Failure → String
  | .sysExit _ => ""
  | .calledProcessError m _ => m
  | .attributeError a => "Namespace object has no attribute " ++ a
  | .generic m => m

/-- The handler invocation built in the `try` block (lines 142-167), with the
arguments read off the namespace. -/
inductive HandlerCall
  | runCmd (subvolume : String)
  | initCmd (sourceUrl : String) (sourceRetention : Option String)
      (destUrl : String) (destRetention : Option String) (compress : Bool)
  | updateCmd (subvolume : String) (sourceRetention destRetention : Option String)
      (compress : Bool)
  | destroyCmd (subvolume : String) (purge : Bool)
  | infoCmd (subvolume : String)
  | sendCmd (source destination : String)
deriving DecidableEq, Repr

/-- `getattr(args, name)` restricted to string-valued positional attributes. -/
def getAttr (args : Args) (name : String) : Option String :=
  args.positionals.lookup name

/-- The dispatch `if/elif` chain (lines 143-167): select the handler by exact
match on `args.command` and read its positional arguments off the namespace;
a missing attribute raises `AttributeError` before the handler is invoked. -/
def dispatch (args : Args) : Except Failure HandlerCall :=
  match args.command with
  | .run =>
      match getAttr args "subvolume" with
      | none => .error (.attributeError "subvolume")
      | some v => .ok (.runCmd v)
  | .init =>
      match getAttr args "source_subvolume" with
      | none => .error (.attributeError "source_subvolume")
      | some src =>
          match getAttr args "destination_subvolume" with
          | none => .error (.attributeError "destination_subvolume")
          | some dst =>
              .ok (.initCmd src args.source_retention dst
                args.destination_retention args.compress)
  | .update =>
      match getAttr args "subvolume" with
      | none => .error (.attributeError "subvolume")
      | some v =>
          .ok (.updateCmd v args.source_retention args.destination_retention
            args.compress)
  | .destroy =>
      match getAttr args "subvolume" with
      | none => .error (.attributeError "subvolume")
      | some v => .ok (.destroyCmd v args.purge)
  | .info =>
      match getAttr args "subvolume" with
      | none => .error (.attributeError "subvolume")
      | some v => .ok (.infoCmd v)
  | .send =>
      match getAttr args "source_subvolume" with
      | none => .error (.attributeError "source_subvolume")
      | some src =>
          match getAttr args "destination_subvolume" with
          | none => .error (.attributeError "destination_subvolume")
          | some dst => .ok (.sendCmd src dst)

/-- The captured-output log entries of the classifier (lines 179-183): the
`output` attribute must be truthy, and its decoded, stripped text non-empty,
to be logged as its own entry. -/
def capturedOutputLogs : Option String → List String
  | none => []
  | some out =>
      if out = "" then []
      else if out.trim = "" then [] else [out.trim]

/-- The `except BaseException` classifier (lines 173-187): the list of
error-severity messages logged, in order: the failure message when non-empty,
then captured subprocess output for a `CalledProcessError` when present and
non-empty after stripping, then the stack trace when `--trace` is enabled. -/
def classifyLogs (f : Failure) (trace : Bool) (tb : String) : List String :=
  (if f.message = "" then [] else [f.message])
    ++ (match f with
        | .calledProcessError _ out => capturedOutputLogs out
        | _ => [])
    ++ (if trace then [tb] else [])

/-- The captured-output component of the report, by failure kind: only a
`CalledProcessError` contributes captured-output entries. -/
def outputComponent : Failure → List String
  | .calledProcessError _ out => capturedOutputLogs out
  | _ => []

/-- A log record as handed to the handlers: rendered timestamp, numeric
level, level name, and message. -/
structure LogRecord where
  asctime : String
  levelno : Nat
  levelname : String
  msg : String
deriving DecidableEq, Repr

/-- `logging.getLevelName` on the standard numeric levels. -/
def levelName (n : Nat) : String :=
  if n = 50 then "CRITICAL"
  else if n = 40 then "ERROR"
  else if n = 30 then "WARNING"
  else if n = 20 then "INFO"
  else if n = 10 then "DEBUG"
  else if n = 0 then "NOTSET"
  else "Level " ++ toString n

/-- Build the record for the `i`-th emission from its (level, message) event,
with the timestamp supplied by the clock oracle. -/
def mkRecord (clock : Nat → String) (i : Nat) (e : Nat × String) : LogRecord :=
  { asctime := clock i, levelno := e.1, levelname := levelName e.1, msg := e.2 }

/-- Records for a list of events starting at emission index `i`. -/
def mkRecordsFrom (clock : Nat → String) : Nat → List (Nat × String) → List LogRecord
  | _, [] => []
  | i, e :: rest => mkRecord clock i e :: mkRecordsFrom clock (i + 1) rest

/-- Records for a list of events starting at emission index 0. -/
def mkRecords (clock : Nat → String) (events : List (Nat × String)) : List LogRecord :=
  mkRecordsFrom clock 0 events

/-- The formatter attached to the memory handler,
`%(asctime)s %(levelname)s %(message)s`. -/
def memoryFormat (r : LogRecord) : String :=
  r.asctime ++ " " ++ r.levelname ++ " " ++ r.msg

/-- `logging.handlers.MemoryHandler` state: capacity, flush level (default
`ERROR` = 40), optional target and record buffer. -/
structure MemoryHandler where
  capacity : Int
  flushLevel : Nat
  target : Option Unit
  buffer : List LogRecord
deriving DecidableEq, Repr

/-- `MemoryHandler.shouldFlush`: buffer length at capacity, or record at the
flush level or higher. -/
def MemoryHandler.shouldFlush (h : MemoryHandler) (r : LogRecord) : Bool :=
  (h.capacity ≤ (h.buffer.length : Int)) || (h.flushLevel ≤ r.levelno)

/-- `MemoryHandler.flush`: the buffer is cleared only when a target handler
has been set; with no target, flushing is a no-op. -/
def MemoryHandler.flush (h : MemoryHandler) : MemoryHandler :=
  match h.target with
  | none => h
  | some _ => { h with buffer := [] }

/-- `MemoryHandler.emit`: append the record, then flush if `shouldFlush`. -/
def MemoryHandler.emit (h : MemoryHandler) (r : LogRecord) : MemoryHandler :=
  let h1 : MemoryHandler := { h with buffer := h.buffer ++ [r] }
  if h1.shouldFlush r then h1.flush else h1

/-- The memory handler as constructed on line 135:
`MemoryHandler(capacity=-1)` with no target and the default flush level. -/
def mkLogMemoryHandler : MemoryHandler :=
  { capacity := -1, flushLevel := 40, target := none, buffer := [] }

/-- Python `chr(10).join`: join strings with newline separators. -/
def joinWithNewlines : List String → String
  | [] => ""
  | [s] => s
  | s :: rest => s ++ "\n" ++ joinWithNewlines rest

/-- Events emitted while the `try` body runs: none when reading the
namespace attributes already raises, otherwise whatever the handler logged
at or above the root logger's level (set to `INFO` = 20 on line 139). -/
def dispatchedEvents (args : Args) (handlerEvents : List (Nat × String)) :
    List (Nat × String) :=
  match dispatch args with
  | .error _ => []
  | .ok _ => handlerEvents.filter (fun e => 20 ≤ e.1)

/-- The failure escaping the `try` body: the dispatch-time attribute failure
when the namespace lookup raises, otherwise the handler's own outcome
(`none` = normal return). -/
def effectiveFailure (args : Args) (outcome : Option Failure) : Option Failure :=
  match dispatch args with
  | .error f => some f
  | .ok _ => outcome

/-- The version banner event logged on line 140, `logger.info` of
`<app> v<version>`. -/
def bannerEvent (ver : String) : Nat × String := (20, appName ++ " v" ++ ver)

/-- The observable outcome of one invocation: every record emitted through
the root logger in order, the process exit code, and the notification sent
via `mail.send` (recipient, subject, body), if any. -/
structure MainResult where
  records : List LogRecord
  exitCode : Int
  mailSent : Option (String × String × String)
deriving DecidableEq, Repr

/-- The module-level flow of `__main__.py` (lines 103-197): sink setup,
banner, dispatch, the `except SystemExit` pass-through, the
`except BaseException` classifier with optional mail escalation, and the
final exit code.  `handlerEvents` are the logging calls the command handler
makes before finishing with `outcome`; `tb` is `traceback.format_exc()`. -/
def main (ver : String) (clock : Nat → String) (args : Args) (config : Config)
    (handlerEvents : List (Nat × String)) (outcome : Option Failure)
    (tb : String) : MainResult :=
  let recip := (setupSinks args config).2
  let preEvents := bannerEvent ver :: dispatchedEvents args handlerEvents
  match effectiveFailure args outcome with
  | none =>
      { records := mkRecords clock preEvents, exitCode := 0, mailSent := none }
  | some (.sysExit c) =>
      { records := mkRecords clock preEvents, exitCode := c, mailSent := none }
  | some f =>
      let errEvents := (classifyLogs f args.trace tb).map (fun m => (40, m))
      let records := mkRecords clock (preEvents ++ errEvents)
      let body := joinWithNewlines
        ((records.foldl MemoryHandler.emit mkLogMemoryHandler).buffer.map memoryFormat)
      { records := records, exitCode := 1,
        mailSent :=
          if pyTruthy recip then
            some (recip.getD "", appName ++ " FAILED", body)
          else none }

/-! ## Helper lemmas -/

/-- Emitting into a memory handler with no target only appends the record. -/
theorem MemoryHandler.emit_no_target (h : MemoryHandler) (r : LogRecord)
    (ht : h.target = none) :
    (h.emit r).buffer = h.buffer ++ [r] ∧ (h.emit r).target = none := by
  unfold MemoryHandler.emit MemoryHandler.flush
  cases hs : MemoryHandler.shouldFlush { h with buffer := h.buffer ++ [r] } r <;>
    simp [hs, ht]

/-- Folding a record list into a targetless memory handler appends them all. -/
theorem MemoryHandler.foldl_emit_no_target (recs : List LogRecord)
    (h : MemoryHandler) (ht : h.target = none) :
    (recs.foldl MemoryHandler.emit h).buffer = h.buffer ++ recs := by
  induction recs generalizing h with
  | nil => simp
  | cons r rest ih =>
      obtain ⟨hb, htgt⟩ := h.emit_no_target r ht
      simp only [List.foldl_cons]
      rw [ih (h.emit r) htgt, hb, List.append_assoc]
      simp

/-- The handler of line 135 in particular accumulates exactly the records
emitted into it. -/
theorem foldl_emit_mkLog_buffer (recs : List LogRecord) :
    (recs.foldl MemoryHandler.emit mkLogMemoryHandler).buffer = recs := by
  simpa using MemoryHandler.foldl_emit_no_target recs mkLogMemoryHandler rfl

/-- `mkRecordsFrom` distributes over append, shifting the index. -/
theorem mkRecordsFrom_append (clock : Nat → String) (i : Nat)
    (l1 l2 : List (Nat × String)) :
    mkRecordsFrom clock i (l1 ++ l2)
      = mkRecordsFrom clock i l1 ++ mkRecordsFrom clock (i + l1.length) l2 := by
  induction l1 generalizing i with
  | nil => simp [mkRecordsFrom]
  | cons e rest ih =>
      show mkRecord clock i e :: mkRecordsFrom clock (i + 1) (rest ++ l2)
        = (mkRecord clock i e :: mkRecordsFrom clock (i + 1) rest)
            ++ mkRecordsFrom clock (i + (e :: rest).length) l2
      rw [ih (i + 1), List.cons_append, List.length_cons,
        show i + 1 + rest.length = i + (rest.length + 1) by omega]

/-- Every event yields a record with its level and message. -/
theorem mkRecordsFrom_mem (clock : Nat → String) (i : Nat)
    (events : List (Nat × String)) (e : Nat × String) (he : e ∈ events) :
    ∃ r ∈ mkRecordsFrom clock i events, r.levelno = e.1 ∧ r.msg = e.2 := by
  induction events generalizing i with
  | nil => cases he
  | cons a rest ih =>
      rcases List.mem_cons.mp he with h | h
      · exact ⟨mkRecord clock i a, List.mem_cons_self _ _, by simp [mkRecord, h]⟩
      · obtain ⟨r, hr, hlv⟩ := ih (i + 1) h
        exact ⟨r, List.mem_cons_of_mem _ hr, hlv⟩

/-! ## Claim theorems -/

/-- C8: The SystemLog sink is attached if and only if the selected command is
`run`; for every other command no SystemLog sink is attached, regardless of
any log-identity setting. -/
theorem syslog_iff_run (args : Args) (config : Config) :
    (setupSinks args config).1.syslog = true ↔ args.command = .run := by
  unfold setupSinks
  by_cases h : args.command = .run <;> cases hm : args.mail <;> simp [h, hm]

/-- C8 witness: for an `info` invocation with a configured log identity the
SystemLog sink is not attached. -/
theorem syslog_iff_run_witness :
    ¬ (setupSinks (parseInfo false false "sub") ⟨some "ident", none⟩).1.syslog = true :=
  fun h =>
    Command.noConfusion ((syslog_iff_run (parseInfo false false "sub")
      ⟨some "ident", none⟩).mp h)

/-- C9: the memory handler of line 135 (`capacity=-1`, no target) retains
every record emitted into it, in emission order, regardless of severity:
no record is evicted or flushed away. -/
theorem memory_buffer_accumulates (recs : List LogRecord) :
    (recs.foldl MemoryHandler.emit mkLogMemoryHandler).buffer = recs := by
  simpa using
    MemoryHandler.foldl_emit_no_target recs mkLogMemoryHandler rfl

/-- C2: escalation arming for `run`: a non-empty `--mail` value is used
verbatim; an empty `--mail` value falls back to the configuration's default
recipient; absent `--mail` leaves escalation unarmed and the MemoryBuffer
unattached; the MemoryBuffer is attached exactly when the command is `run`
and `--mail` is present. -/
theorem escalation_arming (args : Args) (config : Config) :
    (∀ m : String, args.command = .run → args.mail = some m → m ≠ "" →
      (setupSinks args config).2 = some m) ∧
    (args.command = .run → args.mail = some "" →
      (setupSinks args config).2 = config.email_recipient) ∧
    (args.mail = none →
      (setupSinks args config).2 = none ∧ (setupSinks args config).1.memory = false) ∧
    ((setupSinks args config).1.memory = true ↔
      args.command = .run ∧ args.mail ≠ none) := by
  unfold setupSinks
  by_cases h : args.command = .run <;> cases hm : args.mail <;> simp [h, hm]
  exact ⟨fun h1 h2 => absurd h2 h1, fun h1 h2 => absurd h1 h2⟩

/-- C2 witness: `run --mail=foo@bar` arms escalation with `foo@bar`. -/
theorem escalation_arming_witness :
    (setupSinks (parseRun false false "sub" (some "foo@bar") none)
      ⟨none, some "default@x"⟩).2 = some "foo@bar" :=
  (escalation_arming (parseRun false false "sub" (some "foo@bar") none)
    ⟨none, some "default@x"⟩).1 "foo@bar" rfl rfl (by decide)

/-- C3: evaluation of the log-identity resolution at the divergent input.
With `--log-ident` supplied as the explicit empty string and a stored
configuration identity, the guard `if args.log_ident:` treats the empty
string as absent, so the configuration fallback in the dead inner
conditional is never taken and no identity prefix is set (the claim and
the dead code say the resolved identity should be the configuration's
`cfgident`, giving prefix `cfgident` plus a separator). -/
theorem log_ident_config_fallback_unreachable :
    resolveSyslogIdent (some "") (some "cfgident") = "" ∧
    (setupSinks (parseRun false false "vol" none (some ""))
      ⟨some "cfgident", none⟩).1.syslog = true ∧
    (setupSinks (parseRun false false "vol" none (some ""))
      ⟨some "cfgident", none⟩).1.syslogIdent = "" ∧
    resolveSyslogIdent (some "myident") (some "cfgident") = "myident " := by
  decide

/-- C7: evaluation of dispatch for the `send` command.  The `send`
subparser stores its positionals under the hyphenated names
`source-subvolume` / `destination-subvolume`, so the dispatch line reading
`args.source_subvolume` raises `AttributeError` before the send handler can
be invoked, and the invocation is classified and exits 1 instead. -/
theorem send_dispatch_attribute_error :
    dispatch (parseSend false false "snap" "dest" false)
      = Except.error (Failure.attributeError "source_subvolume") ∧
    effectiveFailure (parseSend false false "snap" "dest" false) none
      = some (Failure.attributeError "source_subvolume") ∧
    (main "0.6" (fun _ => "T") (parseSend false false "snap" "dest" false)
      ⟨none, none⟩ [] none "tb").exitCode = 1 := by
  refine ⟨rfl, rfl, rfl⟩

/-- C1: exit-code contract: a `SystemExit` with code 0 escaping the handler
exits 0; a `SystemExit` with any code exits with that exact code, with no
classification, no error logging and no escalation even when armed; any
other escaped failure exits 1 after classification and (if armed)
escalation; and a normal return exits 0. -/
theorem exit_code_contract (ver : String) (clock : Nat → String) (args : Args)
    (config : Config) (hev : List (Nat × String)) (outcome : Option Failure)
    (tb : String) :
    (effectiveFailure args outcome = none →
      (main ver clock args config hev outcome tb).exitCode = 0 ∧
      (main ver clock args config hev outcome tb).mailSent = none) ∧
    (∀ c : Int, effectiveFailure args outcome = some (.sysExit c) →
      (main ver clock args config hev outcome tb).exitCode = c ∧
      (main ver clock args config hev outcome tb).mailSent = none ∧
      (main ver clock args config hev outcome tb).records
        = mkRecords clock (bannerEvent ver :: dispatchedEvents args hev)) ∧
    (∀ f : Failure, effectiveFailure args outcome = some f →
      (∀ c : Int, f ≠ .sysExit c) →
      (main ver clock args config hev outcome tb).exitCode = 1 ∧
      (main ver clock args config hev outcome tb).mailSent.isSome
        = pyTruthy (setupSinks args config).2) := by
  refine ⟨?_, ?_, ?_⟩
  · intro h
    simp [main, h]
  · intro c h
    simp [main, h, mkRecords]
  · intro f h hns
    unfold main
    rw [h]
    cases f with
    | sysExit c => exact absurd rfl (hns c)
    | calledProcessError m o =>
        cases hr : pyTruthy (setupSinks args config).2 <;> simp [hr]
    | attributeError a =>
        cases hr : pyTruthy (setupSinks args config).2 <;> simp [hr]
    | generic m =>
        cases hr : pyTruthy (setupSinks args config).2 <;> simp [hr]

/-- C1 witness: a handler raising `SystemExit` with code 5 makes the process
exit 5, with no escalation and no classification records. -/
theorem exit_code_contract_witness :
    (main "0.6" (fun _ => "T") (parseRun false false "sub" none none)
      ⟨none, none⟩ [] (some (Failure.sysExit 5)) "tb").exitCode = 5 ∧
    (main "0.6" (fun _ => "T") (parseRun false false "sub" none none)
      ⟨none, none⟩ [] (some (Failure.sysExit 5)) "tb").mailSent = none ∧
    (main "0.6" (fun _ => "T") (parseRun false false "sub" none none)
      ⟨none, none⟩ [] (some (Failure.sysExit 5)) "tb").records
      = mkRecords (fun _ => "T")
          (bannerEvent "0.6"
            :: dispatchedEvents (parseRun false false "sub" none none) []) :=
  (exit_code_contract "0.6" (fun _ => "T") (parseRun false false "sub" none none)
    ⟨none, none⟩ [] (some (Failure.sysExit 5)) "tb").2.1 5 rfl

/-- C4: for every classified failure, the error-severity entries appended by
the classifier are, in order: the primary message (exactly when non-empty),
the trimmed captured subprocess output (exactly when the failure is a
`CalledProcessError` with truthy output whose trimmed decoding is non-empty,
independent of trace mode), and the stack trace (exactly when `--trace`). -/
theorem failure_report_emission_order (ver : String) (clock : Nat → String)
    (args : Args) (config : Config) (hev : List (Nat × String))
    (outcome : Option Failure) (tb : String) (f : Failure)
    (hf : effectiveFailure args outcome = some f)
    (hns : ∀ c : Int, f ≠ .sysExit c) :
    ∃ msgPart outPart trPart : List String,
      (main ver clock args config hev outcome tb).records
        = mkRecords clock ((bannerEvent ver :: dispatchedEvents args hev)
            ++ (msgPart ++ outPart ++ trPart).map (fun m => ((40 : Nat), m))) ∧
      msgPart = (if f.message = "" then [] else [f.message]) ∧
      (trPart = if args.trace then [tb] else []) ∧
      ((∃ m o, f = .calledProcessError m (some o) ∧ o ≠ "" ∧ o.trim ≠ "")
        ↔ outPart ≠ []) ∧
      (∀ m o, f = .calledProcessError m (some o) → o ≠ "" → o.trim ≠ "" →
        outPart = [o.trim]) := by
  refine ⟨if f.message = "" then [] else [f.message], outputComponent f,
    if args.trace then [tb] else [], ?_, rfl, rfl, ?_, ?_⟩
  · unfold main
    rw [hf]
    cases f with
    | sysExit c => exact absurd rfl (hns c)
    | calledProcessError m o => rfl
    | attributeError a => rfl
    | generic m => rfl
  · cases f with
    | sysExit c => exact absurd rfl (hns c)
    | calledProcessError m o =>
        cases o with
        | none => simp [outputComponent, capturedOutputLogs]
        | some out =>
            by_cases ho : out = ""
            · simp [outputComponent, capturedOutputLogs, ho]
            · by_cases hot : out.trim = ""
              · simp [outputComponent, capturedOutputLogs, ho, hot]
              · simp only [outputComponent, capturedOutputLogs, if_neg ho,
                  if_neg hot]
                refine ⟨fun _ => by simp, fun _ => ⟨m, out, rfl, ho, hot⟩⟩
    | attributeError a => simp [outputComponent]
    | generic m => simp [outputComponent]
  · intro m o hfe ho hot
    subst hfe
    simp [outputComponent, capturedOutputLogs, ho, hot]

/-- C4 witness: a `CalledProcessError` with message `cmd failed`, captured
output with surrounding whitespace, and trace enabled yields the three
components in order. -/
theorem failure_report_emission_order_witness :
    ∃ msgPart outPart trPart : List String,
      (main "0.6" (fun _ => "T") (parseRun false true "sub" none none)
        ⟨none, none⟩ []
        (some (Failure.calledProcessError "cmd failed" (some " out "))) "tb").records
        = mkRecords (fun _ => "T")
            ((bannerEvent "0.6"
                :: dispatchedEvents (parseRun false true "sub" none none) [])
              ++ (msgPart ++ outPart ++ trPart).map (fun m => ((40 : Nat), m))) ∧
      msgPart = (if (Failure.calledProcessError "cmd failed" (some " out ")).message = ""
          then [] else [(Failure.calledProcessError "cmd failed" (some " out ")).message]) ∧
      (trPart = if (parseRun false true "sub" none none).trace then ["tb"] else []) ∧
      ((∃ m o, Failure.calledProcessError "cmd failed" (some " out ")
          = .calledProcessError m (some o) ∧ o ≠ "" ∧ o.trim ≠ "") ↔ outPart ≠ []) ∧
      (∀ m o, Failure.calledProcessError "cmd failed" (some " out ")
          = .calledProcessError m (some o) → o ≠ "" → o.trim ≠ "" →
        outPart = [o.trim]) :=
  failure_report_emission_order "0.6" (fun _ => "T")
    (parseRun false true "sub" none none) ⟨none, none⟩ []
    (some (Failure.calledProcessError "cmd failed" (some " out "))) "tb"
    (Failure.calledProcessError "cmd failed" (some " out ")) rfl
    (fun _ h => Failure.noConfusion h)

/-- C5: when escalation is armed and a failure is classified, the notifier is
invoked exactly once, with the resolved recipient, subject
`<application-name> FAILED`, and a body rendering every buffered record as
`<timestamp> <severity> <message>` joined by newlines in emission order
(all emitted records, including those from before the failure). -/
theorem escalation_rendering (ver : String) (clock : Nat → String) (args : Args)
    (config : Config) (hev : List (Nat × String)) (outcome : Option Failure)
    (tb : String) (f : Failure)
    (hf : effectiveFailure args outcome = some f)
    (hns : ∀ c : Int, f ≠ .sysExit c)
    (harmed : pyTruthy (setupSinks args config).2 = true) :
    (main ver clock args config hev outcome tb).mailSent
      = some ((setupSinks args config).2.getD "",
          appName ++ " FAILED",
          joinWithNewlines
            ((main ver clock args config hev outcome tb).records.map memoryFormat)) := by
  unfold main
  rw [hf]
  cases f with
  | sysExit c => exact absurd rfl (hns c)
  | calledProcessError m o => simp [harmed, foldl_emit_mkLog_buffer]
  | attributeError a => simp [harmed, foldl_emit_mkLog_buffer]
  | generic m => simp [harmed, foldl_emit_mkLog_buffer]

/-- C5 witness: a generic failure `boom` under `run --mail=a@b` sends exactly
one notification with the armed recipient, the `FAILED` subject, and the full
rendered record history as body. -/
theorem escalation_rendering_witness :
    (main "0.6" (fun _ => "T") (parseRun false false "sub" (some "a@b") none)
      ⟨none, none⟩ [] (some (Failure.generic "boom")) "tb").mailSent
      = some ((setupSinks (parseRun false false "sub" (some "a@b") none)
            ⟨none, none⟩).2.getD "",
          appName ++ " FAILED",
          joinWithNewlines
            ((main "0.6" (fun _ => "T") (parseRun false false "sub" (some "a@b") none)
              ⟨none, none⟩ [] (some (Failure.generic "boom")) "tb").records.map
              memoryFormat)) :=
  escalation_rendering "0.6" (fun _ => "T")
    (parseRun false false "sub" (some "a@b") none) ⟨none, none⟩ []
    (some (Failure.generic "boom")) "tb" (Failure.generic "boom") rfl
    (fun _ h => Failure.noConfusion h) rfl

/-- C6 counterexample: a classified failure whose message is empty, with no
captured output and trace disabled, emits no error-severity record at all:
the run exits 1 with only the INFO banner emitted. -/
theorem empty_failure_no_error_record :
    effectiveFailure (parseRun false false "sub" none none)
      (some (Failure.generic "")) = some (Failure.generic "") ∧
    ((main "0.6" (fun _ => "T") (parseRun false false "sub" none none)
      ⟨none, none⟩ [] (some (Failure.generic "")) "tb").records.filter
        (fun r => r.levelno == 40)) = [] ∧
    (main "0.6" (fun _ => "T") (parseRun false false "sub" none none)
      ⟨none, none⟩ [] (some (Failure.generic "")) "tb").exitCode = 1 ∧
    (main "0.6" (fun _ => "T") (parseRun false false "sub" none none)
      ⟨none, none⟩ [] (some (Failure.generic "")) "tb").records
      = [{ asctime := "T", levelno := 20, levelname := "INFO",
           msg := appName ++ " v0.6" }] := by
  refine ⟨rfl, rfl, rfl, rfl⟩

/-- C6 amended: for every classified failure, at least one error-severity
record is emitted provided the failure's message is non-empty, or trace mode
is enabled, or it is an external-process failure with truthy captured output
whose trimmed decoding is non-empty; a failure with empty message, no such
output, and trace disabled emits none. -/
theorem classified_failure_error_record_amended (ver : String)
    (clock : Nat → String) (args : Args) (config : Config)
    (hev : List (Nat × String)) (outcome : Option Failure) (tb : String)
    (f : Failure)
    (hf : effectiveFailure args outcome = some f)
    (hns : ∀ c : Int, f ≠ .sysExit c)
    (hcond : f.message ≠ "" ∨ args.trace = true ∨
      ∃ m o, f = .calledProcessError m (some o) ∧ o ≠ "" ∧ o.trim ≠ "") :
    ∃ r ∈ (main ver clock args config hev outcome tb).records, r.levelno = 40 := by
  have hne : classifyLogs f args.trace tb ≠ [] := by
    rcases hcond with hm | ht | ⟨m, o, hfe, ho, hot⟩
    · simp [classifyLogs, hm]
    · simp [classifyLogs, ht]
    · subst hfe
      simp [classifyLogs, capturedOutputLogs, ho, hot]
  obtain ⟨msg0, hmsg0⟩ := List.exists_mem_of_ne_nil _ hne
  have hev40 : ((40 : Nat), msg0) ∈
      (bannerEvent ver :: dispatchedEvents args hev)
        ++ (classifyLogs f args.trace tb).map (fun m => ((40 : Nat), m)) :=
    List.mem_append_right _ (List.mem_map_of_mem _ hmsg0)
  obtain ⟨r, hr, hlv, _⟩ := mkRecordsFrom_mem clock 0 _ _ hev40
  refine ⟨r, ?_, hlv⟩
  unfold main
  rw [hf]
  cases f with
  | sysExit c => exact absurd rfl (hns c)
  | calledProcessError m o => exact hr
  | attributeError a => exact hr
  | generic m => exact hr

/-- C6 amended witness: a generic failure with message `disk full` emits an
error-severity record. -/
theorem classified_failure_error_record_amended_witness :
    ∃ r ∈ (main "0.6" (fun _ => "T") (parseRun false false "sub" none none)
      ⟨none, none⟩ [] (some (Failure.generic "disk full")) "tb").records,
      r.levelno = 40 :=
  classified_failure_error_record_amended "0.6" (fun _ => "T")
    (parseRun false false "sub" none none) ⟨none, none⟩ []
    (some (Failure.generic "disk full")) "tb" (Failure.generic "disk full")
    rfl (fun _ h => Failure.noConfusion h) (Or.inl (by decide))

/-- C10: the version banner (`<application-name> v<version>`, INFO) is the
first record emitted in every invocation, before any handler activity; hence
whenever escalation fires the MemoryBuffer is non-empty and the first line of
the rendered body is that banner record. -/
theorem banner_first_record_and_body (ver : String) (clock : Nat → String)
    (args : Args) (config : Config) (hev : List (Nat × String))
    (outcome : Option Failure) (tb : String) :
    (main ver clock args config hev outcome tb).records.head?
      = some (mkRecord clock 0 (bannerEvent ver)) ∧
    (∀ r s b, (main ver clock args config hev outcome tb).mailSent = some (r, s, b) →
      ∃ tail : List String,
        b = joinWithNewlines
          (memoryFormat (mkRecord clock 0 (bannerEvent ver)) :: tail)) := by
  unfold main
  cases he : effectiveFailure args outcome with
  | none => exact ⟨rfl, fun r s b hmail => Option.noConfusion hmail⟩
  | some f =>
      cases f with
      | sysExit c => exact ⟨rfl, fun r s b hmail => Option.noConfusion hmail⟩
      | calledProcessError m o =>
          refine ⟨rfl, fun r s b hmail => ?_⟩
          cases hr : pyTruthy (setupSinks args config).2 with
          | false => simp [hr] at hmail
          | true =>
              simp only [hr, if_true, eq_self_iff_true, Option.some.injEq,
                Prod.mk.injEq] at hmail
              obtain ⟨-, -, hb⟩ := hmail
              refine ⟨(mkRecordsFrom clock 1
                (dispatchedEvents args hev
                  ++ (classifyLogs (.calledProcessError m o) args.trace tb).map
                      (fun x => ((40 : Nat), x)))).map memoryFormat, ?_⟩
              rw [← hb, foldl_emit_mkLog_buffer]
              rfl
      | attributeError a =>
          refine ⟨rfl, fun r s b hmail => ?_⟩
          cases hr : pyTruthy (setupSinks args config).2 with
          | false => simp [hr] at hmail
          | true =>
              simp only [hr, if_true, eq_self_iff_true, Option.some.injEq,
                Prod.mk.injEq] at hmail
              obtain ⟨-, -, hb⟩ := hmail
              refine ⟨(mkRecordsFrom clock 1
                (dispatchedEvents args hev
                  ++ (classifyLogs (.attributeError a) args.trace tb).map
                      (fun x => ((40 : Nat), x)))).map memoryFormat, ?_⟩
              rw [← hb, foldl_emit_mkLog_buffer]
              rfl
      | generic m =>
          refine ⟨rfl, fun r s b hmail => ?_⟩
          cases hr : pyTruthy (setupSinks args config).2 with
          | false => simp [hr] at hmail
          | true =>
              simp only [hr, if_true, eq_self_iff_true, Option.some.injEq,
                Prod.mk.injEq] at hmail
              obtain ⟨-, -, hb⟩ := hmail
              refine ⟨(mkRecordsFrom clock 1
                (dispatchedEvents args hev
                  ++ (classifyLogs (.generic m) args.trace tb).map
                      (fun x => ((40 : Nat), x)))).map memoryFormat, ?_⟩
              rw [← hb, foldl_emit_mkLog_buffer]
              rfl

/-- C10 witness: in an armed failing run, the escalation body's first line is
the rendered INFO banner. -/
theorem banner_first_record_and_body_witness :
    ∃ tail : List String,
      "T INFO " ++ appName ++ " v0.6" ++ "\nT ERROR boom"
        = joinWithNewlines
            (memoryFormat (mkRecord (fun _ => "T") 0 (bannerEvent "0.6")) :: tail) :=
  (banner_first_record_and_body "0.6" (fun _ => "T")
    (parseRun false false "sub" (some "a@b") none) ⟨none, none⟩ []
    (some (Failure.generic "boom")) "tb").2 "a@b"
    (appName ++ " FAILED") ("T INFO " ++ appName ++ " v0.6" ++ "\nT ERROR boom") rfl

end BtrfsSxbackup
